import Mathlib

/-!
Verification of the MTPPO algorithm core (`src/mtrl/rl/algorithms/mtppo.py`,
repository `LucMc/mtrl`) against its natural-language specification.

Shallow embedding conventions:
* Batched one-dimensional arrays of reals become `List ℚ`; batched action
  arrays become `List (List ℚ)`.  The `.reshape(-1, 1)` in the source and the
  `(batch, 1)` column shapes collapse to plain length-`batch` lists, so
  elementwise broadcasting along the batch becomes `List.zipWith`.
* JAX PRNG keys become `ℕ`; `jax.random.split` becomes an injective
  counter-based splitter (`split`, `split3`), following the spec's direction
  to model the random state as a splittable counter abstraction.
* Policy / value-function parameters are abstract types `P` / `V`; the
  networks' `apply_fn` are fields of the embedded `TrainState`.
* `jax.value_and_grad(f)` is modelled by an abstract gradient operator
  `G : (P → ℚ) → P → P` supplied as an argument: the embedding records *which*
  scalar function the gradient is taken of, at which point, exactly as the
  source passes a closure to `jax.value_and_grad`.
* `distrax` distributions become a record `Dist` of their batched operations
  (sample, sample-with-log-prob, log-prob of a given action, mode, stddev,
  entropy).  `jnp.exp` is an abstract scalar map `rexp : ℚ → ℚ`.
* Python `assert` failures and the chex shape assertion become
  `Except String`; the error strings are the assertion messages of the source.
* `float(...)` / `jax.device_get(...)` are host transfers, identity here.
-/

namespace MTRL

/-- Log dictionaries (`LogDict` in `mtrl.types`): string-keyed scalar logs. -/
abbrev LogDict : Type := List (String × ℚ)

/-- Python `dict` union `a | b`: keys of `b` override keys of `a`; insertion
order is keys of `a` first.  Used for `policy_logs | vf_logs`. -/
def dictUnion (a b : LogDict) : LogDict :=
  a.filter (fun kv => !(b.any (fun kv2 => kv2.1 == kv.1))) ++ b

/-- Embeds `jnp.mean` of a one-dimensional array (mean of the empty list is 0,
an unreachable case under the orchestrator's preconditions). -/
def mean (l : List ℚ) : ℚ := l.sum / l.length

/-- Embeds `jax.lax.clamp(lo, x, hi)` on one scalar: `min (max x lo) hi`. -/
def clampQ (lo x hi : ℚ) : ℚ := min (max x lo) hi

/-- Embeds `jax.random.split(key)` as an injective counter split: the first
component is the carried-on key, the second the consumed subkey.  The two
derived streams are distinct from each other and from every other split's. -/
def split (k : ℕ) : ℕ × ℕ := (2 * k + 1, 2 * k + 2)

/-- Embeds `jax.random.split(key, 3)` in the same counter style. -/
def split3 (k : ℕ) : ℕ × ℕ × ℕ := (3 * k + 1, 3 * k + 2, 3 * k + 3)

/-- Embeds `jax.random.PRNGKey(seed)`. -/
def PRNGKey (seed : ℕ) : ℕ := seed

/-- A `distrax.Distribution` as produced by the policy network on a batch of
observations: the batched operations the source consumes. -/
structure Dist where
  sample : ℕ → List (List ℚ)
  sampleAndLogProb : ℕ → List (List ℚ) × List ℚ
  logProb : List (List ℚ) → List ℚ
  mode : List (List ℚ)
  stddev : List (List ℚ)
  entropy : List ℚ

/-- Embeds `flax.training.train_state.TrainState`: parameters, step counter, the
network's apply function, and the optimizer's gradient transformation
(`tx`, opaque: it maps gradients and current parameters to new parameters). -/
structure TrainState (Par In Out : Type) where
  params : Par
  step : ℕ
  applyFn : Par → In → Out
  txUpdate : Par → Par → Par

/-- Embeds `TrainState.apply_gradients(grads)`: apply the optimizer transformation
and increment the step counter. -/
def TrainState.applyGradients {Par In Out : Type} (s : TrainState Par In Out)
    (grads : Par) : TrainState Par In Out :=
  { s with params := s.txUpdate grads s.params, step := s.step + 1 }

/-- Modelled from the spec: the `Rollout` structure of `mtrl.types` (not under
`src/`), per spec §3 — an ordered batch of (observation, action,
log-probability, value-estimate, advantage, return) tuples in which
log-probabilities, advantages and returns may be absent. -/
structure Rollout (Ob : Type) where
  observations : List Ob
  actions : List (List ℚ)
  log_probs : Option (List ℚ)
  values : List ℚ
  advantages : Option (List ℚ)
  returns : Option (List ℚ)

/-- Modelled from the spec: an off-policy `ReplayBufferSamples` batch of
`mtrl.types` (not under `src/`); its contents are never consumed by MTPPO,
which rejects it by type. -/
structure ReplayBufferSamples (Ob : Type) where
  observations : List Ob

/-- The `MTPPO` training-state container: policy and value-function train
states, the random state, and the hyperparameters (spec §3).  `num_tasks` and
`gamma` are inherited from `AlgorithmConfig` (repository code not under
`src/`), modelled from the spec's hyperparameter list. -/
structure MTPPO (Ob P V : Type) where
  num_tasks : ℕ
  policy : TrainState P (List Ob) Dist
  value_function : TrainState V (List Ob) (List ℚ)
  key : ℕ
  gamma : ℚ
  clip_eps : ℚ
  clip_vf_loss : Bool
  entropy_coefficient : ℚ
  vf_coefficient : ℚ
  target_kl : Option ℚ

/-- Embeds `MTPPOConfig` (source lines 74–82).  `num_tasks` and `gamma` come from the
base `AlgorithmConfig` (not under `src/`, modelled from the spec) and have no
recorded default; the remaining defaults are the source's dataclass defaults
(`clip_eps=0.2`, `clip_vf_loss=True`, `entropy_coefficient=5e-3`,
`vf_coefficient=0.0`, `target_kl=None`). -/
structure MTPPOConfig where
  num_tasks : ℕ
  gamma : ℚ
  clip_eps : ℚ := 1 / 5
  clip_vf_loss : Bool := true
  entropy_coefficient : ℚ := 1 / 200
  vf_coefficient : ℚ := 0
  target_kl : Option ℚ := none

/-- A gymnasium space as far as the source consumes it: either a continuous
`Box` (with a shape and a sampler drawing one element per call) or a
non-box space (e.g. `Discrete`). -/
inductive Space (Ob : Type) where
  | box (shape : List ℕ) (sampleFn : ℕ → Ob)
  | discrete (n : ℕ)

/-- Embeds `EnvConfig` as consumed by `initialize` (`mtrl.envs`, not under `src/`,
modelled from the spec §6): exposes an observation space and an action
space. Action-space elements are real vectors. -/
structure EnvConfig (Ob : Type) where
  observation_space : Space Ob
  action_space : Space (List ℚ)

section Algorithm

variable {Ob P V : Type}

/-- Embeds `_sample_action` (source lines 32–40): split the key, build the
distribution from the current policy parameters, draw one sample. -/
def _sample_action (policy : TrainState P (List Ob) Dist) (observation : List Ob)
    (key : ℕ) : List (List ℚ) × ℕ :=
  let key2 := (split key).1
  let action_key := (split key).2
  let dist := policy.applyFn policy.params observation
  (dist.sample action_key, key2)

/-- Embeds `MTPPO.sample_action` (source lines 149–152): thread the new key back into
the container, hand the (host-transferred) action to the caller. -/
def sample_action (s : MTPPO Ob P V) (observation : List Ob) :
    MTPPO Ob P V × List (List ℚ) :=
  let res := _sample_action s.policy observation s.key
  ({ s with key := res.2 }, res.1)

/-- Embeds `_eval_action` (source lines 43–49): the distribution's mode; no key. -/
def _eval_action (policy : TrainState P (List Ob) Dist) (observation : List Ob) :
    List (List ℚ) :=
  (policy.applyFn policy.params observation).mode

/-- Embeds `MTPPO.eval_action` (source lines 166–168): returns only the action. -/
def eval_action (s : MTPPO Ob P V) (observation : List Ob) : List (List ℚ) :=
  _eval_action s.policy observation

/-- The inner closure `policy_loss` of `MTPPO.update_policy` (source lines
173–193), with the captured pieces (`self`, `data`, `policy_loss_key`) as
explicit arguments and the candidate parameters last: recompute the action
distribution, draw a fresh sample's log-probabilities with the split-off key,
form the clipped-surrogate loss and the entropy bonus, return the total loss
and the scalar logs. -/
def policy_loss (rexp : ℚ → ℚ) (s : MTPPO Ob P V) (data : Rollout Ob)
    (policy_loss_key : ℕ) (params : P) : ℚ × LogDict :=
  let action_dist := s.policy.applyFn params data.observations
  let new_log_probs := (action_dist.sampleAndLogProb policy_loss_key).2
  let log_ratio := List.zipWith (fun a b => a - b) new_log_probs (data.log_probs.getD [])
  let ratio := log_ratio.map rexp
  let pg_loss1 := List.zipWith (fun a r => -a * r) (data.advantages.getD []) ratio
  let pg_loss2 := List.zipWith
    (fun a r => -a * clampQ (1 - s.clip_eps) r (1 + s.clip_eps))
    (data.advantages.getD []) ratio
  let pg_loss := mean (List.zipWith max pg_loss1 pg_loss2)
  let entropy_loss := mean action_dist.entropy
  (pg_loss - s.entropy_coefficient * entropy_loss,
    [("losses/entropy_loss", entropy_loss), ("losses/policy_loss", pg_loss)])

/-- Embeds `MTPPO.update_policy` (source lines 170–200). `G` models
`jax.value_and_grad` restricted to its gradient component: the aux logs are
the loss closure's value at the current parameters, the gradients are `G`
applied to the loss closure, and `apply_gradients` produces the new policy. -/
def update_policy (G : (P → ℚ) → P → P) (rexp : ℚ → ℚ) (s : MTPPO Ob P V)
    (data : Rollout Ob) : MTPPO Ob P V × LogDict :=
  let key := (split s.key).1
  let policy_loss_key := (split s.key).2
  let logs := (policy_loss rexp s data policy_loss_key s.policy.params).2
  let policy_grads := G (fun p => (policy_loss rexp s data policy_loss_key p).1) s.policy.params
  let policy := s.policy.applyGradients policy_grads
  ({ s with policy := policy, key := key }, logs)

/-- The inner closure `value_function_loss` of `MTPPO.update_value_function`
(source lines 203–221), candidate parameters last: recompute values, form the
(optionally clipped) squared-error loss, return the coefficient-scaled loss
together with logs of the *unscaled* loss and the mean value estimate. -/
def value_function_loss (s : MTPPO Ob P V) (data : Rollout Ob) (params : V) :
    ℚ × LogDict :=
  let new_values := s.value_function.applyFn params data.observations
  let rets := data.returns.getD []
  let vf_loss : ℚ :=
    if s.clip_vf_loss then
      let vf_loss_unclipped := List.zipWith (fun v r => (v - r) ^ 2) new_values rets
      let v_clipped := List.zipWith
        (fun old v => old + clampQ (-s.clip_eps) (v - old) s.clip_eps)
        data.values new_values
      let vf_loss_clipped := List.zipWith (fun v r => (v - r) ^ 2) v_clipped rets
      (1 / 2) * mean (List.zipWith max vf_loss_unclipped vf_loss_clipped)
    else
      (1 / 2) * mean (List.zipWith (fun v r => (v - r) ^ 2) new_values rets)
  (s.vf_coefficient * vf_loss,
    [("losses/value_function", vf_loss), ("losses/values", mean new_values)])

/-- Embeds `MTPPO.update_value_function` (source lines 202–228).  Modelled from the
spec for the external `chex.assert_equal_shape` call (chex is not repository
code): per spec §4.3 a shape mismatch between the recomputed values and the
returns is a fatal contract violation, modelled as an `Except.error` raised
when the loss closure is evaluated at the current parameters; otherwise the
gradient of the (scaled) loss closure is applied to the value function. -/
def update_value_function (Gv : (V → ℚ) → V → V) (s : MTPPO Ob P V)
    (data : Rollout Ob) : Except String (MTPPO Ob P V × LogDict) :=
  if (s.value_function.applyFn s.value_function.params data.observations).length
      = (data.returns.getD []).length then
    let logs := (value_function_loss s data s.value_function.params).2
    let vf_grads := Gv (fun p => (value_function_loss s data p).1) s.value_function.params
    let value_function := s.value_function.applyGradients vf_grads
    Except.ok ({ s with value_function := value_function }, logs)
  else
    Except.error "Arrays have different shapes."

/-- Embeds `MTPPO._update_inner` (source lines 230–234): policy step, then value step
on the resulting container, then merge logs with Python dict union. -/
def _update_inner (G : (P → ℚ) → P → P) (Gv : (V → ℚ) → V → V) (rexp : ℚ → ℚ)
    (s : MTPPO Ob P V) (data : Rollout Ob) :
    Except String (MTPPO Ob P V × LogDict) :=
  let pres := update_policy G rexp s data
  match update_value_function Gv pres.1 data with
  | Except.ok (s2, vf_logs) => Except.ok (s2, dictUnion pres.2 vf_logs)
  | Except.error e => Except.error e

/-- Embeds `MTPPO.update` (source lines 236–246): the four precondition asserts, in
source order, then `_update_inner`.  The argument type
`ReplayBufferSamples ⊕ Rollout` mirrors the source annotation
`ReplayBufferSamples | Rollout`; `isinstance(data, Rollout)` is the
`Sum.inr` test. -/
def update (G : (P → ℚ) → P → P) (Gv : (V → ℚ) → V → V) (rexp : ℚ → ℚ)
    (s : MTPPO Ob P V) (d : ReplayBufferSamples Ob ⊕ Rollout Ob) :
    Except String (MTPPO Ob P V × LogDict) :=
  match d with
  | Sum.inl _ => Except.error "MTPPO does not support replay buffer samples."
  | Sum.inr data =>
    if data.log_probs.isNone then
      Except.error "Rollout policy log probs must have been recorded."
    else if data.advantages.isNone then
      Except.error "GAE must be enabled for MTPPO."
    else if data.returns.isNone then
      Except.error "Returns must be computed for MTPPO."
    else _update_inner G Gv rexp s data

/-- Embeds `MTPPO.initialize` (source lines 96–147).  The external network
constructors and optimizers are passed in: `pInit`/`vInit` are the networks'
`init(key, dummy_batch)`, `pApply`/`vApply` their `apply`, `pTx`/`vTx` the
spawned optimizer transformations.  Non-box action or observation spaces are
the source's fatal `assert` failures (action space checked first). -/
def initAlgorithm (pInit : ℕ → List Ob → P) (pApply : P → List Ob → Dist)
    (pTx : P → P → P) (vInit : ℕ → List Ob → V) (vApply : V → List Ob → List ℚ)
    (vTx : V → V → V) (config : MTPPOConfig) (env_config : EnvConfig Ob)
    (seed : ℕ) : Except String (MTPPO Ob P V) :=
  match env_config.action_space with
  | Space.discrete _ => Except.error "Non-box spaces currently not supported."
  | Space.box _ _ =>
    match env_config.observation_space with
    | Space.discrete _ => Except.error "Non-box spaces currently not supported."
    | Space.box _ obsSample =>
      let master_key := PRNGKey seed
      let algorithm_key := (split3 master_key).1
      let actor_init_key := (split3 master_key).2.1
      let vf_init_key := (split3 master_key).2.2
      let dummy_obs := (List.range config.num_tasks).map obsSample
      Except.ok
        { num_tasks := config.num_tasks
          policy := ⟨pInit actor_init_key dummy_obs, 0, pApply, pTx⟩
          value_function := ⟨vInit vf_init_key dummy_obs, 0, vApply, vTx⟩
          key := algorithm_key
          gamma := config.gamma
          clip_eps := config.clip_eps
          clip_vf_loss := config.clip_vf_loss
          entropy_coefficient := config.entropy_coefficient
          vf_coefficient := config.vf_coefficient
          target_kl := config.target_kl }

/-- Spec-side (claim wording): the log-probabilities of a *freshly drawn*
sample from the candidate distribution, using the split-off sampling key —
not the recomputed log-probabilities of the stored actions. -/
def freshLogProbs (s : MTPPO Ob P V) (data : Rollout Ob) (k : ℕ) (params : P) :
    List ℚ :=
  ((s.policy.applyFn params data.observations).sampleAndLogProb k).2

/-- Spec-side: `ratio = exp(new_log_prob − old_log_prob)`, elementwise. -/
def ratioSpec (rexp : ℚ → ℚ) (s : MTPPO Ob P V) (data : Rollout Ob)
    (lp : List ℚ) (k : ℕ) (params : P) : List ℚ :=
  List.zipWith (fun nlp olp => rexp (nlp - olp)) (freshLogProbs s data k params) lp

/-- Spec-side: `mean(max(−advantage × ratio, −advantage × clamp(ratio, 1−ε, 1+ε)))`,
the PPO pessimistic-bound surrogate. -/
def pgLossSpec (rexp : ℚ → ℚ) (s : MTPPO Ob P V) (data : Rollout Ob)
    (lp adv : List ℚ) (k : ℕ) (params : P) : ℚ :=
  mean (List.zipWith
    (fun a r => max (-a * r) (-a * clampQ (1 - s.clip_eps) r (1 + s.clip_eps)))
    adv (ratioSpec rexp s data lp k params))

/-- Spec-side: the batch-mean entropy of the candidate distribution. -/
def entropyMeanSpec (s : MTPPO Ob P V) (data : Rollout Ob) (params : P) : ℚ :=
  mean (s.policy.applyFn params data.observations).entropy

/-- Spec-side (claim C1): total loss
`pg_loss − entropy_coefficient × entropy`. -/
def policyTotalLossSpec (rexp : ℚ → ℚ) (s : MTPPO Ob P V) (data : Rollout Ob)
    (lp adv : List ℚ) (k : ℕ) (params : P) : ℚ :=
  pgLossSpec rexp s data lp adv k params
    - s.entropy_coefficient * entropyMeanSpec s data params

/-- Spec-side (claim C2): with clipping, 0.5 × mean of the elementwise max of
`(new_value − return)²` and `(clipped_value − return)²` with
`clipped_value = old_value + clamp(new_value − old_value, −ε, +ε)`;
without clipping, `0.5 × mean((new_value − return)²)`. -/
def vfLossSpec (s : MTPPO Ob P V) (data : Rollout Ob) (ret : List ℚ)
    (params : V) : ℚ :=
  let new_values := s.value_function.applyFn params data.observations
  if s.clip_vf_loss then
    (1 / 2) * mean (List.zipWith3
      (fun v old r =>
        max ((v - r) ^ 2) ((old + clampQ (-s.clip_eps) (v - old) s.clip_eps - r) ^ 2))
      new_values data.values ret)
  else
    (1 / 2) * mean (List.zipWith (fun v r => (v - r) ^ 2) new_values ret)

/-- Whether an `Except` computation succeeded. -/
def isOkE {α : Type} : Except String α → Bool
  | Except.ok _ => true
  | Except.error _ => false

end Algorithm

/-- Concrete distribution fixture: a two-sample batch with explicit
operations, used to instantiate universally quantified theorems. -/
def testDist : Dist :=
  ⟨fun _ => [[1], [1]],
   fun k => ([[1], [1]], [(k : ℚ), (k : ℚ) + 1]),
   fun _ => [0, 0],
   [[0], [0]],
   [[1], [1]],
   [1, 2]⟩

/-- Concrete policy train-state fixture over scalar parameters. -/
def testPolicy : TrainState ℚ (List Unit) Dist :=
  ⟨0, 0, fun _ _ => testDist, fun g p => p - g⟩

/-- Concrete value-function train-state fixture: the constant-per-observation
network `obs ↦ params`. -/
def testVF : TrainState ℚ (List Unit) (List ℚ) :=
  ⟨1, 0, fun p obs => obs.map (fun _ => p), fun g p => p - g⟩

/-- Concrete container fixture (default hyperparameters of `MTPPOConfig`). -/
def testState : MTPPO Unit ℚ ℚ :=
  ⟨2, testPolicy, testVF, 5, 99 / 100, 1 / 5, true, 1 / 200, 0, none⟩

/-- Concrete two-sample rollout with all optional statistics present. -/
def testRollout : Rollout Unit :=
  ⟨[(), ()], [[0], [0]], some [0, 0], [1, 1], some [1, -1], some [2, 0]⟩

/-- Concrete rollout whose returns' shape (length 1) disagrees with the
value-function output shape (length 2). -/
def testRolloutBad : Rollout Unit :=
  ⟨[(), ()], [[0], [0]], some [0, 0], [1, 1], some [1, -1], some [2]⟩

/-- Concrete off-policy replay batch, for the type-rejection precondition. -/
def testReplay : ReplayBufferSamples Unit :=
  ⟨[()]⟩

/-- Concrete gradient operator fixture: the forward difference, which is
linear in its function argument and sends the zero function to zero. -/
def testGradQ : (ℚ → ℚ) → ℚ → ℚ := fun f x => f (x + 1) - f x

/-- Concrete stand-in for the abstract exponential map. -/
def testRexp : ℚ → ℚ := fun x => 1 + x

section Algorithm

variable {Ob P V : Type}

/-- Elementwise maximum of two elementwise combinations of the same two lists
fuses into one elementwise combination. -/
theorem zipWith_max_zipWith {α β : Type} (f g : α → β → ℚ) :
    ∀ (l1 : List α) (l2 : List β),
      List.zipWith max (List.zipWith f l1 l2) (List.zipWith g l1 l2)
        = List.zipWith (fun a b => max (f a b) (g a b)) l1 l2
  | [], _ => by simp
  | _ :: _, [] => by simp
  | a :: l1, b :: l2 => by
    simpa using zipWith_max_zipWith f g l1 l2

/-- Mapping a scalar function over an elementwise difference fuses. -/
theorem map_zipWith_sub (rexp : ℚ → ℚ) :
    ∀ l1 l2 : List ℚ,
      (List.zipWith (fun a b => a - b) l1 l2).map rexp
        = List.zipWith (fun a b => rexp (a - b)) l1 l2
  | [], _ => by simp
  | _ :: _, [] => by simp
  | a :: l1, b :: l2 => by
    simpa using map_zipWith_sub rexp l1 l2

/-- The nested pairwise `zipWith`s of the value-loss computation collapse into
one ternary `zipWith3` over (new values, old values, returns). -/
theorem zipWith_vf_max (ε : ℚ) :
    ∀ nv vals ret : List ℚ,
      List.zipWith max
        (List.zipWith (fun v r => (v - r) ^ 2) nv ret)
        (List.zipWith (fun v r => (v - r) ^ 2)
          (List.zipWith (fun old v => old + clampQ (-ε) (v - old) ε) vals nv) ret)
      = List.zipWith3
          (fun v old r =>
            max ((v - r) ^ 2) ((old + clampQ (-ε) (v - old) ε - r) ^ 2))
          nv vals ret
  | [], _, _ => by simp [List.zipWith3]
  | _ :: _, [], _ => by simp [List.zipWith3]
  | _ :: _, _ :: _, [] => by simp [List.zipWith3]
  | v :: nv, old :: vals, r :: ret => by
    simpa [List.zipWith3] using zipWith_vf_max ε nv vals ret

/-- The policy-loss closure, under the orchestrator's preconditions, computes
exactly the spec-side total loss and logs the spec-side entropy and surrogate
means. -/
theorem policy_loss_eq (rexp : ℚ → ℚ) (s : MTPPO Ob P V) (data : Rollout Ob)
    (lp adv : List ℚ) (k : ℕ) (hlp : data.log_probs = some lp)
    (hadv : data.advantages = some adv) (params : P) :
    policy_loss rexp s data k params
      = (policyTotalLossSpec rexp s data lp adv k params,
         [("losses/entropy_loss", entropyMeanSpec s data params),
          ("losses/policy_loss", pgLossSpec rexp s data lp adv k params)]) := by
  simp only [policy_loss, hlp, hadv, Option.getD_some, policyTotalLossSpec,
    pgLossSpec, ratioSpec, entropyMeanSpec, freshLogProbs, map_zipWith_sub,
    zipWith_max_zipWith]

/-- The value-loss closure, with returns present, computes exactly the
coefficient-scaled spec-side loss and logs the unscaled spec-side loss and
the mean value estimate. -/
theorem value_function_loss_eq (s : MTPPO Ob P V) (data : Rollout Ob)
    (ret : List ℚ) (hret : data.returns = some ret) (params : V) :
    value_function_loss s data params
      = (s.vf_coefficient * vfLossSpec s data ret params,
         [("losses/value_function", vfLossSpec s data ret params),
          ("losses/values", mean (s.value_function.applyFn params data.observations))]) := by
  simp only [value_function_loss, vfLossSpec, hret, Option.getD_some,
    zipWith_vf_max]

/-- With returns present and the shapes matching, the value update applies
the gradient of the coefficient-scaled spec-side loss and logs the unscaled
spec-side loss and the mean value estimate. -/
theorem update_value_function_ok (Gv : (V → ℚ) → V → V) (s : MTPPO Ob P V)
    (data : Rollout Ob) (ret : List ℚ) (hret : data.returns = some ret)
    (hshape : (s.value_function.applyFn s.value_function.params data.observations).length
      = ret.length) :
    update_value_function Gv s data
      = Except.ok
          ({ s with value_function := (s.value_function.applyGradients
              (Gv (fun p => s.vf_coefficient * vfLossSpec s data ret p)
                s.value_function.params)) },
           [("losses/value_function", vfLossSpec s data ret s.value_function.params),
            ("losses/values",
              mean (s.value_function.applyFn s.value_function.params data.observations))]) := by
  have hfun : (fun p => (value_function_loss s data p).1)
      = fun p => s.vf_coefficient * vfLossSpec s data ret p := by
    funext p
    rw [value_function_loss_eq s data ret hret p]
  unfold update_value_function
  rw [hret]
  simp only [Option.getD_some]
  rw [if_pos hshape, hfun, value_function_loss_eq s data ret hret]

/-- Claim C1: for every rollout batch (log-probabilities and advantages
present), the policy update's total loss is
`mean(max(−advantage × ratio, −advantage × clamp(ratio, 1−ε, 1+ε)))
 − entropy_coefficient × mean(entropy)` with
`ratio = exp(new_log_prob − old_log_prob)` where `new_log_prob` is the
log-probability of a freshly drawn sample from the candidate distribution
(`freshLogProbs`, drawn with the split-off key — not the recomputed
log-probability of the stored action), and the gradient applied to the policy
is the gradient of that total loss in the policy parameters. -/
theorem update_policy_matches_claimed_loss (G : (P → ℚ) → P → P) (rexp : ℚ → ℚ)
    (s : MTPPO Ob P V) (data : Rollout Ob) (lp adv : List ℚ)
    (hlp : data.log_probs = some lp) (hadv : data.advantages = some adv) :
    update_policy G rexp s data
      = ({ s with
            policy := (s.policy.applyGradients
              (G (policyTotalLossSpec rexp s data lp adv (split s.key).2)
                s.policy.params)),
            key := (split s.key).1 },
         [("losses/entropy_loss", entropyMeanSpec s data s.policy.params),
          ("losses/policy_loss",
            pgLossSpec rexp s data lp adv (split s.key).2 s.policy.params)]) := by
  have hfun : (fun p => (policy_loss rexp s data (split s.key).2 p).1)
      = policyTotalLossSpec rexp s data lp adv (split s.key).2 := by
    funext p
    rw [policy_loss_eq rexp s data lp adv (split s.key).2 hlp hadv p]
  simp only [update_policy, hfun,
    policy_loss_eq rexp s data lp adv (split s.key).2 hlp hadv]

/-- Witness for claim C1 at a concrete container, rollout, gradient operator
and exponential map. -/
theorem update_policy_matches_claimed_loss_witness :
    testRollout.log_probs = some [0, 0]
    ∧ testRollout.advantages = some [1, -1]
    ∧ update_policy testGradQ testRexp testState testRollout
      = ({ testState with
            policy := (testState.policy.applyGradients
              (testGradQ
                (policyTotalLossSpec testRexp testState testRollout [0, 0] [1, -1]
                  (split testState.key).2)
                testState.policy.params)),
            key := (split testState.key).1 },
         [("losses/entropy_loss", entropyMeanSpec testState testRollout testState.policy.params),
          ("losses/policy_loss",
            pgLossSpec testRexp testState testRollout [0, 0] [1, -1]
              (split testState.key).2 testState.policy.params)]) :=
  ⟨rfl, rfl,
    update_policy_matches_claimed_loss testGradQ testRexp testState testRollout
      [0, 0] [1, -1] rfl rfl⟩

/-- Claim C2: for every rollout batch with returns present and matching
shapes, the value loss is — with clipping enabled — 0.5 × the batch mean of
the elementwise max of `(new_value − return)²` and `(clipped_value − return)²`
with `clipped_value = old_value + clamp(new_value − old_value, −ε, +ε)`, and
without clipping `0.5 × mean((new_value − return)²)` (both branches of
`vfLossSpec`); the gradient applied to the value function is that of this
loss scaled by the value-loss coefficient. -/
theorem update_value_function_matches_claimed_loss (Gv : (V → ℚ) → V → V)
    (s : MTPPO Ob P V) (data : Rollout Ob) (ret : List ℚ)
    (hret : data.returns = some ret)
    (hshape : (s.value_function.applyFn s.value_function.params data.observations).length
      = ret.length) :
    update_value_function Gv s data
      = Except.ok
          ({ s with value_function := (s.value_function.applyGradients
              (Gv (fun p => s.vf_coefficient * vfLossSpec s data ret p)
                s.value_function.params)) },
           [("losses/value_function", vfLossSpec s data ret s.value_function.params),
            ("losses/values",
              mean (s.value_function.applyFn s.value_function.params data.observations))]) :=
  update_value_function_ok Gv s data ret hret hshape

/-- Witness for claim C2 at a concrete container and rollout. -/
theorem update_value_function_matches_claimed_loss_witness :
    testRollout.returns = some [2, 0]
    ∧ (testState.value_function.applyFn testState.value_function.params
        testRollout.observations).length = ([2, 0] : List ℚ).length
    ∧ update_value_function testGradQ testState testRollout
      = Except.ok
          ({ testState with value_function := (testState.value_function.applyGradients
              (testGradQ
                (fun p => testState.vf_coefficient * vfLossSpec testState testRollout [2, 0] p)
                testState.value_function.params)) },
           [("losses/value_function",
              vfLossSpec testState testRollout [2, 0] testState.value_function.params),
            ("losses/values",
              mean (testState.value_function.applyFn testState.value_function.params
                testRollout.observations))]) :=
  ⟨rfl, rfl,
    update_value_function_matches_claimed_loss testGradQ testState testRollout
      [2, 0] rfl rfl⟩

/-- Claim C3: `update` rejects, before any numerical work, off-policy replay
batches and rollouts missing log-probabilities, advantages, or returns, each
with the source's fatal assertion message and in the source's checking order;
when all four preconditions hold it proceeds to `_update_inner` (the policy
and value steps), and — when the value step's shape contract also holds —
returns a new container with the two log records merged by dict union. -/
theorem update_precondition_gate (G : (P → ℚ) → P → P) (Gv : (V → ℚ) → V → V)
    (rexp : ℚ → ℚ) (s : MTPPO Ob P V) (r : ReplayBufferSamples Ob)
    (data : Rollout Ob) (lp adv ret : List ℚ)
    (hlp : data.log_probs = some lp) (hadv : data.advantages = some adv)
    (hret : data.returns = some ret) :
    update G Gv rexp s (Sum.inl r)
        = Except.error "MTPPO does not support replay buffer samples."
    ∧ (∀ d : Rollout Ob, d.log_probs = none →
        update G Gv rexp s (Sum.inr d)
          = Except.error "Rollout policy log probs must have been recorded.")
    ∧ (∀ d : Rollout Ob, d.log_probs.isSome = true → d.advantages = none →
        update G Gv rexp s (Sum.inr d)
          = Except.error "GAE must be enabled for MTPPO.")
    ∧ (∀ d : Rollout Ob, d.log_probs.isSome = true → d.advantages.isSome = true →
        d.returns = none →
        update G Gv rexp s (Sum.inr d)
          = Except.error "Returns must be computed for MTPPO.")
    ∧ update G Gv rexp s (Sum.inr data) = _update_inner G Gv rexp s data
    ∧ (isOkE (update_value_function Gv (update_policy G rexp s data).1 data) = true →
        ∃ c vl, update G Gv rexp s (Sum.inr data)
          = Except.ok (c, dictUnion (update_policy G rexp s data).2 vl)) := by
  refine ⟨rfl, ?_, ?_, ?_, ?_, ?_⟩
  · intro d h
    simp [update, h]
  · intro d h1 h2
    cases hl : d.log_probs with
    | none => rw [hl] at h1; simp at h1
    | some v => simp [update, hl, h2]
  · intro d h1 h2 h3
    cases hl : d.log_probs with
    | none => rw [hl] at h1; simp at h1
    | some v =>
      cases ha : d.advantages with
      | none => rw [ha] at h2; simp at h2
      | some w => simp [update, hl, ha, h3]
  · simp [update, hlp, hadv, hret]
  · intro h
    cases huvf : update_value_function Gv (update_policy G rexp s data).1 data with
    | ok pr =>
      obtain ⟨c, vl⟩ := pr
      exact ⟨c, vl, by simp [update, hlp, hadv, hret, _update_inner, huvf]⟩
    | error e => rw [huvf] at h; simp [isOkE] at h

/-- Witness for claim C3 at concrete inputs. -/
theorem update_precondition_gate_witness :
    testRollout.log_probs = some [0, 0]
    ∧ testRollout.advantages = some [1, -1]
    ∧ testRollout.returns = some [2, 0]
    ∧ (update testGradQ testGradQ testRexp testState (Sum.inl testReplay)
          = Except.error "MTPPO does not support replay buffer samples."
      ∧ (∀ d : Rollout Unit, d.log_probs = none →
          update testGradQ testGradQ testRexp testState (Sum.inr d)
            = Except.error "Rollout policy log probs must have been recorded.")
      ∧ (∀ d : Rollout Unit, d.log_probs.isSome = true → d.advantages = none →
          update testGradQ testGradQ testRexp testState (Sum.inr d)
            = Except.error "GAE must be enabled for MTPPO.")
      ∧ (∀ d : Rollout Unit, d.log_probs.isSome = true → d.advantages.isSome = true →
          d.returns = none →
          update testGradQ testGradQ testRexp testState (Sum.inr d)
            = Except.error "Returns must be computed for MTPPO.")
      ∧ update testGradQ testGradQ testRexp testState (Sum.inr testRollout)
          = _update_inner testGradQ testGradQ testRexp testState testRollout
      ∧ (isOkE (update_value_function testGradQ
            (update_policy testGradQ testRexp testState testRollout).1 testRollout) = true →
          ∃ c vl, update testGradQ testGradQ testRexp testState (Sum.inr testRollout)
            = Except.ok (c, dictUnion
                (update_policy testGradQ testRexp testState testRollout).2 vl))) :=
  ⟨rfl, rfl, rfl,
    update_precondition_gate testGradQ testGradQ testRexp testState testReplay
      testRollout [0, 0] [1, -1] [2, 0] rfl rfl rfl⟩

/-- The value step reads only the container's value-function train state,
the clipping flag, the clip epsilon and the value-loss coefficient: two
containers agreeing on those fields yield the same resulting value-function
train state and the same logs. -/
theorem update_value_function_reads_only (Gv : (V → ℚ) → V → V)
    (s1 s2 : MTPPO Ob P V) (data : Rollout Ob)
    (hvf : s1.value_function = s2.value_function)
    (hclip : s1.clip_vf_loss = s2.clip_vf_loss)
    (heps : s1.clip_eps = s2.clip_eps)
    (hcoef : s1.vf_coefficient = s2.vf_coefficient) :
    Except.map (fun pr => (pr.1.value_function, pr.2))
        (update_value_function Gv s1 data)
      = Except.map (fun pr => (pr.1.value_function, pr.2))
        (update_value_function Gv s2 data) := by
  unfold update_value_function value_function_loss
  rw [hvf, hclip, heps, hcoef]
  split_ifs <;> rfl

/-- Claim C4: within one `update` call, the value step is computed from the
original container's value-function parameters — its resulting value-function
train state and its logs are identical whether or not the policy step's
parameter update happened first (the policy step touches only the `policy`
and `key` fields). -/
theorem value_step_independent_of_policy_step (G : (P → ℚ) → P → P)
    (Gv : (V → ℚ) → V → V) (rexp : ℚ → ℚ) (s : MTPPO Ob P V) (data : Rollout Ob) :
    Except.map (fun pr => (pr.1.value_function, pr.2))
        (update_value_function Gv (update_policy G rexp s data).1 data)
      = Except.map (fun pr => (pr.1.value_function, pr.2))
        (update_value_function Gv s data) :=
  update_value_function_reads_only Gv (update_policy G rexp s data).1 s data
    rfl rfl rfl rfl

/-- Claim C5: when the recomputed value estimates' shape (batch length)
differs from the returns' shape, the value update fails fatally instead of
broadcasting. -/
theorem value_step_shape_mismatch_fatal (Gv : (V → ℚ) → V → V)
    (s : MTPPO Ob P V) (data : Rollout Ob) (ret : List ℚ)
    (hret : data.returns = some ret)
    (hmismatch : (s.value_function.applyFn s.value_function.params data.observations).length
      ≠ ret.length) :
    update_value_function Gv s data = Except.error "Arrays have different shapes." := by
  unfold update_value_function
  rw [hret]
  simp only [Option.getD_some]
  rw [if_neg hmismatch]

/-- Witness for claim C5: a two-observation batch against length-1 returns. -/
theorem value_step_shape_mismatch_fatal_witness :
    testRolloutBad.returns = some [2]
    ∧ (testState.value_function.applyFn testState.value_function.params
        testRolloutBad.observations).length ≠ ([2] : List ℚ).length
    ∧ update_value_function testGradQ testState testRolloutBad
        = Except.error "Arrays have different shapes." :=
  ⟨rfl, by decide,
    value_step_shape_mismatch_fatal testGradQ testState testRolloutBad [2] rfl
      (by decide)⟩

/-- Claim C6: `sample_action` returns a container in which only the
random-state field differs (it becomes the carried-on half of the key split);
policy, value function and every hyperparameter are unchanged; the returned
action is drawn from the distribution computed from the current policy
parameters with the split-off sampling key. -/
theorem sample_action_frame (s : MTPPO Ob P V) (obs : List Ob) :
    sample_action s obs
      = ({ s with key := (split s.key).1 },
         (s.policy.applyFn s.policy.params obs).sample (split s.key).2)
    ∧ (sample_action s obs).1.policy = s.policy
    ∧ (sample_action s obs).1.value_function = s.value_function
    ∧ (sample_action s obs).1.num_tasks = s.num_tasks
    ∧ (sample_action s obs).1.gamma = s.gamma
    ∧ (sample_action s obs).1.clip_eps = s.clip_eps
    ∧ (sample_action s obs).1.clip_vf_loss = s.clip_vf_loss
    ∧ (sample_action s obs).1.entropy_coefficient = s.entropy_coefficient
    ∧ (sample_action s obs).1.vf_coefficient = s.vf_coefficient
    ∧ (sample_action s obs).1.target_kl = s.target_kl
    ∧ (sample_action s obs).1.key = (split s.key).1 :=
  ⟨rfl, rfl, rfl, rfl, rfl, rfl, rfl, rfl, rfl, rfl, rfl⟩

/-- Claim C7: `eval_action` is deterministic — it depends only on the policy
train state and the observation, returning the distribution's mode — and it
neither consumes nor mutates the random state (no container is returned, and
the container's key is irrelevant to the output). -/
theorem eval_action_deterministic (s1 s2 : MTPPO Ob P V) (obs : List Ob)
    (h : s1.policy = s2.policy) :
    eval_action s1 obs = eval_action s2 obs
    ∧ eval_action s1 obs = (s1.policy.applyFn s1.policy.params obs).mode
    ∧ (∀ k, eval_action { s1 with key := k } obs = eval_action s1 obs) := by
  refine ⟨?_, rfl, fun k => rfl⟩
  unfold eval_action _eval_action
  rw [h]

/-- Witness for claim C7: two containers sharing a policy but holding
different random states produce identical evaluation actions. -/
theorem eval_action_deterministic_witness :
    testState.policy = ({ testState with key := 7 } : MTPPO Unit ℚ ℚ).policy
    ∧ (eval_action testState [(), ()]
          = eval_action { testState with key := 7 } [(), ()]
      ∧ eval_action testState [(), ()]
          = (testState.policy.applyFn testState.policy.params [(), ()]).mode
      ∧ (∀ k, eval_action { testState with key := k } [(), ()]
          = eval_action testState [(), ()])) :=
  ⟨rfl, eval_action_deterministic testState { testState with key := 7 } [(), ()] rfl⟩

/-- Claim C8: initialization fails with the source's fatal assertion whenever
the action space or the observation space is not a box space; when both are
box spaces it derives three random states (algorithm, policy-init,
value-init) from the seed — pairwise distinct in this key model — and
initializes policy and value networks from a dummy observation batch with one
observation-space sample per task, of size equal to the task count. -/
theorem initialization_contract (pInit : ℕ → List Ob → P)
    (pApply : P → List Ob → Dist) (pTx : P → P → P) (vInit : ℕ → List Ob → V)
    (vApply : V → List Ob → List ℚ) (vTx : V → V → V) (config : MTPPOConfig)
    (env : EnvConfig Ob) (seed : ℕ) :
    initAlgorithm pInit pApply pTx vInit vApply vTx config env seed
      = (match env.action_space, env.observation_space with
         | Space.box _ _, Space.box _ obsSample =>
           Except.ok
             { num_tasks := config.num_tasks
               policy := ⟨pInit (split3 (PRNGKey seed)).2.1
                 ((List.range config.num_tasks).map obsSample), 0, pApply, pTx⟩
               value_function := ⟨vInit (split3 (PRNGKey seed)).2.2
                 ((List.range config.num_tasks).map obsSample), 0, vApply, vTx⟩
               key := (split3 (PRNGKey seed)).1
               gamma := config.gamma
               clip_eps := config.clip_eps
               clip_vf_loss := config.clip_vf_loss
               entropy_coefficient := config.entropy_coefficient
               vf_coefficient := config.vf_coefficient
               target_kl := config.target_kl }
         | _, _ => Except.error "Non-box spaces currently not supported.")
    ∧ (∀ f : ℕ → Ob, ((List.range config.num_tasks).map f).length = config.num_tasks)
    ∧ (split3 (PRNGKey seed)).1 ≠ (split3 (PRNGKey seed)).2.1
    ∧ (split3 (PRNGKey seed)).1 ≠ (split3 (PRNGKey seed)).2.2
    ∧ (split3 (PRNGKey seed)).2.1 ≠ (split3 (PRNGKey seed)).2.2 := by
  refine ⟨?_, ?_, ?_, ?_, ?_⟩
  · obtain ⟨os, as⟩ := env
    cases as <;> cases os <;> rfl
  · intro f
    simp
  · simp only [split3, PRNGKey]
    omega
  · simp only [split3, PRNGKey]
    omega
  · simp only [split3, PRNGKey]
    omega

/-- Claim C9: the gradient applied to the value function is the gradient of
`vf_coefficient × value loss`, while the `losses/value_function` log entry is
the *unscaled* value loss; when `vf_coefficient = 0` the differentiated
function collapses pointwise to the zero function (so any genuine gradient
operator — which maps the zero function to zero, as the forward-difference
witness does — applies a zero update); and the dataclass default for
`vf_coefficient` is 0. -/
theorem vf_gradient_scaled_loss_logged_unscaled (Gv : (V → ℚ) → V → V)
    (s : MTPPO Ob P V) (data : Rollout Ob) (ret : List ℚ)
    (hret : data.returns = some ret)
    (hshape : (s.value_function.applyFn s.value_function.params data.observations).length
      = ret.length) :
    update_value_function Gv s data
      = Except.ok
          ({ s with value_function := (s.value_function.applyGradients
              (Gv (fun p => s.vf_coefficient * vfLossSpec s data ret p)
                s.value_function.params)) },
           [("losses/value_function", vfLossSpec s data ret s.value_function.params),
            ("losses/values",
              mean (s.value_function.applyFn s.value_function.params data.observations))])
    ∧ (s.vf_coefficient = 0 →
        Gv (fun p => s.vf_coefficient * vfLossSpec s data ret p) s.value_function.params
          = Gv (fun _ => (0 : ℚ)) s.value_function.params)
    ∧ (∀ (n : ℕ) (g : ℚ),
        ({ num_tasks := n, gamma := g } : MTPPOConfig).vf_coefficient = 0) := by
  refine ⟨update_value_function_ok Gv s data ret hret hshape, ?_, fun n g => rfl⟩
  intro h
  have hz : (fun p => s.vf_coefficient * vfLossSpec s data ret p) = fun _ => (0 : ℚ) := by
    funext p
    rw [h, zero_mul]
  rw [hz]

/-- Witness for claim C9 at concrete inputs (the fixture's coefficient is the
default 0, and its gradient operator sends the zero function to zero). -/
theorem vf_gradient_scaled_loss_logged_unscaled_witness :
    testRollout.returns = some [2, 0]
    ∧ (testState.value_function.applyFn testState.value_function.params
        testRollout.observations).length = ([2, 0] : List ℚ).length
    ∧ (update_value_function testGradQ testState testRollout
        = Except.ok
            ({ testState with value_function := (testState.value_function.applyGradients
                (testGradQ
                  (fun p => testState.vf_coefficient * vfLossSpec testState testRollout [2, 0] p)
                  testState.value_function.params)) },
             [("losses/value_function",
                vfLossSpec testState testRollout [2, 0] testState.value_function.params),
              ("losses/values",
                mean (testState.value_function.applyFn testState.value_function.params
                  testRollout.observations))])
      ∧ (testState.vf_coefficient = 0 →
          testGradQ (fun p => testState.vf_coefficient * vfLossSpec testState testRollout [2, 0] p)
              testState.value_function.params
            = testGradQ (fun _ => (0 : ℚ)) testState.value_function.params)
      ∧ (∀ (n : ℕ) (g : ℚ),
          ({ num_tasks := n, gamma := g } : MTPPOConfig).vf_coefficient = 0)) :=
  ⟨rfl, rfl,
    vf_gradient_scaled_loss_logged_unscaled testGradQ testState testRollout [2, 0]
      rfl rfl⟩

/-- Frame of the value step: on success it returns the input container with
only the `value_function` field replaced. -/
theorem uvf_frame (Gv : (V → ℚ) → V → V) (s : MTPPO Ob P V) (data : Rollout Ob)
    (h : isOkE (update_value_function Gv s data) = true) :
    ∃ s' l, update_value_function Gv s data = Except.ok (s', l)
      ∧ s'.key = s.key ∧ s'.policy = s.policy ∧ s'.num_tasks = s.num_tasks
      ∧ s'.gamma = s.gamma ∧ s'.clip_eps = s.clip_eps
      ∧ s'.clip_vf_loss = s.clip_vf_loss
      ∧ s'.entropy_coefficient = s.entropy_coefficient
      ∧ s'.vf_coefficient = s.vf_coefficient ∧ s'.target_kl = s.target_kl
      ∧ s' = { s with value_function := s'.value_function } := by
  revert h
  unfold update_value_function
  split
  · intro _
    exact ⟨_, _, rfl, rfl, rfl, rfl, rfl, rfl, rfl, rfl, rfl, rfl, rfl⟩
  · intro h
    simp [isOkE] at h

/-- Claim C10: within one `update` call the random state is advanced exactly
once, by the policy step's key split: the value step replaces only the
`value_function` field (key, policy and hyperparameters unchanged), the
policy step replaces only the `policy` and `key` fields (value function
unchanged), and the container produced by `_update_inner` carries key
`(split s.key).1`. -/
theorem update_single_key_advance (G : (P → ℚ) → P → P) (Gv : (V → ℚ) → V → V)
    (rexp : ℚ → ℚ) (s : MTPPO Ob P V) (data : Rollout Ob)
    (h1 : isOkE (update_value_function Gv s data) = true)
    (h2 : isOkE (_update_inner G Gv rexp s data) = true) :
    (∃ s' l, update_value_function Gv s data = Except.ok (s', l)
      ∧ s'.key = s.key ∧ s'.policy = s.policy ∧ s'.num_tasks = s.num_tasks
      ∧ s'.gamma = s.gamma ∧ s'.clip_eps = s.clip_eps
      ∧ s'.clip_vf_loss = s.clip_vf_loss
      ∧ s'.entropy_coefficient = s.entropy_coefficient
      ∧ s'.vf_coefficient = s.vf_coefficient ∧ s'.target_kl = s.target_kl
      ∧ s' = { s with value_function := s'.value_function })
    ∧ (update_policy G rexp s data).1.value_function = s.value_function
    ∧ (update_policy G rexp s data).1
        = { s with
            policy := (update_policy G rexp s data).1.policy
            key := (split s.key).1 }
    ∧ (∃ s2 l2, _update_inner G Gv rexp s data = Except.ok (s2, l2)
        ∧ s2.key = (split s.key).1) := by
  have hinner : _update_inner G Gv rexp s data
      = (match update_value_function Gv (update_policy G rexp s data).1 data with
         | Except.ok (s2, vf_logs) =>
           Except.ok (s2, dictUnion (update_policy G rexp s data).2 vf_logs)
         | Except.error e => Except.error e) := rfl
  refine ⟨uvf_frame Gv s data h1, rfl, rfl, ?_⟩
  have hok : isOkE (update_value_function Gv (update_policy G rexp s data).1 data) = true := by
    rw [hinner] at h2
    cases huvf : update_value_function Gv (update_policy G rexp s data).1 data with
    | ok pr => rfl
    | error e =>
      rw [huvf] at h2
      simp [isOkE] at h2
  obtain ⟨s', l, heq, hkey, -⟩ := uvf_frame Gv (update_policy G rexp s data).1 data hok
  refine ⟨s', dictUnion (update_policy G rexp s data).2 l, ?_, ?_⟩
  · rw [hinner, heq]
  · rw [hkey]
    show ({ s with
            policy := (update_policy G rexp s data).1.policy
            key := (split s.key).1 } : MTPPO Ob P V).key = (split s.key).1
    rfl

/-- Witness for claim C10 at concrete inputs where both the value step and
the full inner update succeed. -/
theorem update_single_key_advance_witness :
    isOkE (update_value_function testGradQ testState testRollout) = true
    ∧ isOkE (_update_inner testGradQ testGradQ testRexp testState testRollout) = true
    ∧ ((∃ s' l, update_value_function testGradQ testState testRollout = Except.ok (s', l)
        ∧ s'.key = testState.key ∧ s'.policy = testState.policy
        ∧ s'.num_tasks = testState.num_tasks
        ∧ s'.gamma = testState.gamma ∧ s'.clip_eps = testState.clip_eps
        ∧ s'.clip_vf_loss = testState.clip_vf_loss
        ∧ s'.entropy_coefficient = testState.entropy_coefficient
        ∧ s'.vf_coefficient = testState.vf_coefficient
        ∧ s'.target_kl = testState.target_kl
        ∧ s' = { testState with value_function := s'.value_function })
      ∧ (update_policy testGradQ testRexp testState testRollout).1.value_function
          = testState.value_function
      ∧ (update_policy testGradQ testRexp testState testRollout).1
          = { testState with
              policy := (update_policy testGradQ testRexp testState testRollout).1.policy
              key := (split testState.key).1 }
      ∧ (∃ s2 l2, _update_inner testGradQ testGradQ testRexp testState testRollout
            = Except.ok (s2, l2)
          ∧ s2.key = (split testState.key).1)) :=
  ⟨rfl, rfl,
    update_single_key_advance testGradQ testGradQ testRexp testState testRollout
      rfl rfl⟩

end Algorithm

end MTRL
